import Mathlib

/-!
Verification of the GroundingDINO decoding/post-processing layer
(`demo/inference_on_a_image_v2.py` and `demo/inference_for_webapp.py`).

Scores and coordinates are embedded as rationals (`ℚ`), Python strings as
`List Char`.  The external detector, tokenizer and positive-map builder
(`create_positive_map_from_span`) are out of scope; their outputs appear as
inputs of the embedded functions.  Tensor primitives used by the demo code
(`tensor.max`, boolean-mask indexing, `torch.cat`) are modelled directly,
including the fact that `torch.cat` raises on an empty list of tensors.
-/

/-- A 4-component box, used both for `(cx, cy, w, h)` normalized boxes and
for `(x0, y0, x1, y1)` corner boxes. -/
structure Vec4 where
  v0 : ℚ
  v1 : ℚ
  v2 : ℚ
  v3 : ℚ
deriving DecidableEq

/-- Maximum of a list of scores, as in `tensor.max()` over a logits row
(rows have width 256 in the source, so the empty default is never hit). -/
def rowMax : List ℚ → ℚ
  | [] => 0
  | x :: xs => xs.foldl max x

/-- Boolean-mask selection, as in `tensor[mask]`: keep the entries of `xs`
whose mask bit is `true`, in their original order. -/
def maskSelect (mask : List Bool) (xs : List α) : List α :=
  ((mask.zip xs).filter (fun p => p.1)).map (fun p => p.2)

/-- The threshold-based extractor of `get_grounding_output`
(`inference_on_a_image_v2.py`, the `token_spans is None` branch, lines
145-159): keep the query slots whose peak score strictly exceeds
`box_threshold`, and report each kept slot's peak raw score.  Phrase
recovery per kept slot is delegated to the external
`get_phrases_from_posmap` and is not part of this model. -/
def extract_by_threshold (logits : List (List ℚ)) (boxes : List Vec4)
    (box_threshold : ℚ) : List Vec4 × List ℚ :=
  let filt_mask := logits.map (fun row => decide (box_threshold < rowMax row))
  let logits_filt := maskSelect filt_mask logits
  let boxes_filt := maskSelect filt_mask boxes
  (boxes_filt, logits_filt.map rowMax)

/-- Indices of the query slots retained by the threshold extractor: those
whose peak score strictly exceeds the box threshold, in slot order. -/
def thresholdKeptIndices (logits : List (List ℚ)) (box_threshold : ℚ) : List Nat :=
  (List.range logits.length).filter
    (fun q => decide (box_threshold < rowMax (logits.getD q [])))

/-- Number of detections produced by the threshold-based extractor. -/
def detection_count (logits : List (List ℚ)) (boxes : List Vec4)
    (box_threshold : ℚ) : Nat :=
  (extract_by_threshold logits boxes box_threshold).2.length

/-- Dot product of two score rows, as used by the matrix product
`positive_maps @ logits.T` one entry at a time. -/
def dot : List ℚ → List ℚ → ℚ
  | [], _ => 0
  | _, [] => 0
  | x :: xs, y :: ys => x * y + dot xs ys

/-- The aggregated scores `logits_for_phrases = positive_maps @ logits.T`
(line 166): one row per phrase group, one entry per query slot. -/
def aggScores (posmaps logits : List (List ℚ)) : List (List ℚ) :=
  posmaps.map (fun p => logits.map (fun row => dot p row))

/-- Concatenation of a list of tensors along dim 0, as in `torch.cat`:
raises (here: `none`) when the list of tensors is empty. -/
def torchCat (ts : List (List α)) : Option (List α) :=
  match ts with
  | [] => none
  | _ => some ts.flatten

/-- Phrase text of one token-span group (line 171): the `caption[s:e]`
substrings of the group's ranges, joined with a single space in range
order.  Python slices clamp out-of-range bounds, as `drop`/`take` do. -/
def spanPhrase (caption : List Char) (token_span : List (Nat × Nat)) : List Char :=
  ((token_span.map (fun r => ((caption.drop r.1).take (r.2 - r.1)))).intersperse [ ' ' ]).flatten

/-- Indices of the query slots whose aggregated score in `srow` strictly
exceeds the box threshold, in slot order. -/
def hitIndices (srow : List ℚ) (box_threshold : ℚ) : List Nat :=
  (List.range srow.length).filter (fun q => decide (box_threshold < srow.getD q 0))

/-- The token-span extractor of `get_grounding_output` (the `else` branch,
lines 160-182).  `posmaps` is the output of the external
`create_positive_map_from_span` (one indicator row per phrase group).  For
each group: the phrase text is the joined caption substrings, the retained
slots are those whose aggregated score exceeds `box_threshold`, and results
are concatenated with `torch.cat` across groups, which fails when there are
no groups at all. -/
def extract_by_spans (logits : List (List ℚ)) (boxes : List Vec4)
    (posmaps : List (List ℚ)) (caption : List Char)
    (token_spans : List (List (Nat × Nat))) (box_threshold : ℚ) :
    Option (List Vec4 × List (List Char) × List ℚ) :=
  let logits_for_phrases := aggScores posmaps logits
  let per := (token_spans.zip logits_for_phrases).map (fun gs =>
    let phrase := spanPhrase caption gs.1
    let filt_mask := gs.2.map (fun s => decide (box_threshold < s))
    (maskSelect filt_mask boxes,
     List.replicate (filt_mask.count true) phrase,
     maskSelect filt_mask gs.2))
  match torchCat (per.map (fun t => t.1)), torchCat (per.map (fun t => t.2.2)) with
  | some boxes_filt, some pred_scores =>
    some (boxes_filt, (per.map (fun t => t.2.1)).flatten, pred_scores)
  | _, _ => none

/-- The extraction mode chosen by `get_grounding_output`. -/
inductive ExtractPath where
  | thresholdMode (text_threshold : ℚ)
  | spansMode (token_spans : List (List (Nat × Nat)))
deriving DecidableEq

/-- The argument validation and path dispatch at the top of
`get_grounding_output` (lines 130-132 and 145/160): the `assert` fires
exactly when both `text_threshold` and `token_spans` are `None`; otherwise
the token-span path is taken whenever `token_spans` is present. -/
def get_grounding_dispatch (text_threshold : Option ℚ)
    (token_spans : Option (List (List (Nat × Nat)))) : Except (List Char) ExtractPath :=
  if text_threshold = none ∧ token_spans = none then
    Except.error ("text_threshold and token_spans should not be None at the same time".toList)
  else
    match token_spans, text_threshold with
    | some ts, _ => Except.ok (ExtractPath.spansMode ts)
    | none, some t => Except.ok (ExtractPath.thresholdMode t)
    | none, none => Except.error ("unreachable".toList)

/-- The helper `_clamp(value, min_value, max_value)` (lines 185-186). -/
def pyClamp (value minValue maxValue : ℚ) : ℚ :=
  max minValue (min maxValue value)

/-- One box of `boxes_cxcywh_to_xyxy` (lines 189-203): normalized
center-size to pixel corners, with component-independent clamping into
`[0, width] × [0, height]` when `clamp` is set. -/
def box_cxcywh_to_xyxy_one (b : Vec4) (width height : ℚ) (clamp : Bool) : Vec4 :=
  let x0 := (b.v0 - b.v2 / 2) * width
  let y0 := (b.v1 - b.v3 / 2) * height
  let x1 := (b.v0 + b.v2 / 2) * width
  let y1 := (b.v1 + b.v3 / 2) * height
  if clamp then
    ⟨pyClamp x0 0 width, pyClamp y0 0 height, pyClamp x1 0 width, pyClamp y1 0 height⟩
  else
    ⟨x0, y0, x1, y1⟩

/-- The function `boxes_cxcywh_to_xyxy` of the source (lines 189-203). -/
def boxes_cxcywh_to_xyxy (boxes : List Vec4) (width height : ℚ) (clamp : Bool) : List Vec4 :=
  boxes.map (fun b => box_cxcywh_to_xyxy_one b width height clamp)

/-- The function `boxes_xyxy_to_xywh` of the source (lines 206-210). -/
def boxes_xyxy_to_xywh (boxes_xyxy : List Vec4) : List Vec4 :=
  boxes_xyxy.map (fun b => ⟨b.v0, b.v1, b.v2 - b.v0, b.v3 - b.v1⟩)

/-- Pixel corner box to normalized corner box, as computed inline in
`save_boxes_json` (lines 227-229): divide by width/height per component. -/
def xyxyToNorm (width height : ℚ) (b : Vec4) : Vec4 :=
  ⟨b.v0 / width, b.v1 / height, b.v2 / width, b.v3 / height⟩

/-- Python's builtin `round`: round half to even. -/
def pyRound (q : ℚ) : Int :=
  if q - Int.floor q < Rat.mk' 1 2 then Int.floor q
  else if Rat.mk' 1 2 < q - Int.floor q then Int.floor q + 1
  else if Int.floor q % 2 = 0 then Int.floor q else Int.floor q + 1

/-- One entry of the detailed JSON record's `boxes` array (lines 235-245). -/
structure DetailItem where
  label : List Char
  score : ℚ
  box_cxcywh_norm : Vec4
  box_xyxy : Vec4
  box_xyxy_int : Int × Int × Int × Int
  box_xyxy_norm : Vec4
  box_xywh : Vec4
deriving DecidableEq

/-- The detailed JSON payload written by `save_boxes_json` (lines 247-254).
`text_threshold` is nullable (Python `None` becomes JSON `null`). -/
structure DetailPayload where
  image_path : List Char
  image_width : ℚ
  image_height : ℚ
  text_prompt : List Char
  box_threshold : ℚ
  text_threshold : Option ℚ
  boxes : List DetailItem
deriving DecidableEq

/-- The item-assembly loop of `save_boxes_json` (lines 232-245): iterate
over `zip(labels, scores)` (which silently truncates to the shorter list)
and index the derived box lists at the running position; an out-of-range
index is Python's fatal `IndexError`, modelled as `none`. -/
def buildItems (bcx bxyxy bnorm bxywh : List Vec4) :
    Nat → List (List Char × ℚ) → Option (List DetailItem)
  | _, [] => some []
  | idx, ls :: rest =>
    match bxyxy[idx]?, bcx[idx]?, bnorm[idx]?, bxywh[idx]? with
    | some xy, some c, some nb, some wh =>
      match buildItems bcx bxyxy bnorm bxywh (idx + 1) rest with
      | some items =>
        some ({ label := ls.1, score := ls.2, box_cxcywh_norm := c, box_xyxy := xy,
                box_xyxy_int := (pyRound xy.v0, pyRound xy.v1, pyRound xy.v2, pyRound xy.v3),
                box_xyxy_norm := nb, box_xywh := wh } :: items)
      | none => none
    | _, _, _, _ => none

/-- The payload construction of `save_boxes_json` (lines 213-254, the file
write itself is out of scope): derive all coordinate representations from
the authoritative `boxes_cxcywh_norm` (with `clamp=True`, the Python
default) and assemble one record per `zip(labels, scores)` entry. -/
def save_boxes_json (image_path : List Char) (width height : ℚ)
    (text_prompt : List Char) (box_threshold : ℚ) (text_threshold : Option ℚ)
    (boxes_cxcywh_norm : List Vec4) (labels : List (List Char)) (scores : List ℚ) :
    Option DetailPayload :=
  let boxes_xyxy := boxes_cxcywh_to_xyxy boxes_cxcywh_norm width height true
  let boxes_xyxy_norm := boxes_xyxy.map (fun b => xyxyToNorm width height b)
  let boxes_xywh := boxes_xyxy_to_xywh boxes_xyxy
  match buildItems boxes_cxcywh_norm boxes_xyxy boxes_xyxy_norm boxes_xywh 0
      (labels.zip scores) with
  | some items =>
    some { image_path := image_path, image_width := width, image_height := height,
           text_prompt := text_prompt, box_threshold := box_threshold,
           text_threshold := text_threshold, boxes := items }
  | none => none

/-- The detailed-record call of the v2 CLI entry point (lines 313-315 and
339-349): when token spans are supplied the CLI sets `text_threshold` to
`None` before passing it to `save_boxes_json`. -/
def v2_main_detail_payload (image_path : List Char) (width height : ℚ)
    (text_prompt : List Char) (box_threshold cli_text_threshold : ℚ)
    (token_spans_given : Bool) (boxes : List Vec4) (labels : List (List Char))
    (scores : List ℚ) : Option DetailPayload :=
  save_boxes_json image_path width height text_prompt box_threshold
    (if token_spans_given then none else some cli_text_threshold)
    boxes labels scores

/-- The detailed-record call of the webapp runner (`inference_for_webapp.py`
lines 49-53 and 77-88): `text_threshold` becomes `None` when token spans
are supplied, but line 84 passes `text_threshold if text_threshold is not
None else 0.0` to `save_boxes_json`, so the detailed record's field is a
number either way. -/
def webapp_detail_payload (image_path : List Char) (width height : ℚ)
    (text_prompt : List Char) (box_threshold cli_text_threshold : ℚ)
    (token_spans_given : Bool) (boxes : List Vec4) (labels : List (List Char))
    (scores : List ℚ) : Option DetailPayload :=
  let text_threshold : Option ℚ :=
    if token_spans_given then none else some cli_text_threshold
  save_boxes_json image_path width height text_prompt box_threshold
    (some (match text_threshold with | some t => t | none => 0))
    boxes labels scores

/-- The `text_threshold` field of the webapp's compact web record
(`inference_for_webapp.py` line 106): `float(text_threshold)` when present,
`None` otherwise. -/
def webapp_web_text_threshold (cli_text_threshold : ℚ)
    (token_spans_given : Bool) : Option ℚ :=
  if token_spans_given then none else some cli_text_threshold

/-- Python `str.isspace` for the ASCII range (the whitespace stripped by
`str.strip()`); non-ASCII Unicode whitespace is not modelled. -/
def pyIsSpace (c : Char) : Bool :=
  c = ' ' || c = '\t' || c = '\n' || c = '\r' || c = '\x0b' || c = '\x0c'

/-- Python `str.strip()` with no arguments: drop leading and trailing
whitespace. -/
def pyStrip (s : List Char) : List Char :=
  ((s.dropWhile pyIsSpace).reverse.dropWhile pyIsSpace).reverse

/-- The static default class list `DEFAULT_GROUNDING_DINO_CLASSES`
(`inference_on_a_image_v2.py` lines 16-54), in source order (including the
duplicated entry for lamps). -/
def DEFAULT_GROUNDING_DINO_CLASSES : List (List Char) :=
  ["person".toList, "man".toList, "woman".toList, "child".toList, "baby".toList,
   "dog".toList, "cat".toList, "bird".toList, "horse".toList, "cow".toList, "sheep".toList,
   "car".toList, "truck".toList, "bus".toList, "van".toList, "motorcycle".toList,
   "bicycle".toList, "train".toList, "airplane".toList, "boat".toList, "ship".toList,
   "house".toList, "building".toList, "skyscraper".toList, "garage".toList,
   "bridge".toList, "tower".toList, "fence".toList, "wall".toList, "gate".toList,
   "window".toList, "door".toList, "roof".toList, "balcony".toList,
   "tree".toList, "bush".toList, "grass".toList, "flower".toList, "plant".toList,
   "rock".toList, "stone".toList, "mountain".toList, "hill".toList,
   "road".toList, "street".toList, "sidewalk".toList, "path".toList,
   "bench".toList, "lamp".toList, "street lamp".toList, "traffic light".toList,
   "sign".toList, "traffic sign".toList, "pole".toList,
   "trash".toList, "trash can".toList, "garbage bin".toList, "container".toList,
   "box".toList, "crate".toList, "barrel".toList, "cart".toList,
   "chair".toList, "table".toList, "sofa".toList, "couch".toList,
   "umbrella".toList,
   "bed".toList, "desk".toList, "cabinet".toList, "shelf".toList, "bookshelf".toList,
   "television".toList, "monitor".toList, "laptop".toList, "keyboard".toList,
   "mouse".toList, "phone".toList, "clock".toList,
   "picture".toList, "painting".toList, "mirror".toList,
   "lamp".toList, "light".toList,
   "sky".toList, "cloud".toList, "sun".toList,
   "water".toList, "river".toList, "lake".toList,
   "ground".toList, "floor".toList, "ceiling".toList]

/-- Python `sep.join(parts)`. -/
def joinWithSep (sep : List Char) (parts : List (List Char)) : List Char :=
  (parts.intersperse sep).flatten

/-- The function `resolve_text_prompt` of `inference_for_webapp.py`
(lines 16-19): a prompt that is empty or strips to empty falls back to the
comma-plus-space join of the default class list. -/
def resolve_text_prompt (text_prompt : List Char) : List Char :=
  if text_prompt ≠ [] ∧ pyStrip text_prompt ≠ [] then pyStrip text_prompt
  else joinWithSep [ ',', ' ' ] DEFAULT_GROUNDING_DINO_CLASSES

/-- Abstract syntax of the Python expression given as the `--token_spans`
CLI string: literal values plus function calls (the shape that separates
`ast.literal_eval` from the builtin `eval`). -/
inductive PyExpr where
  | noneLit : PyExpr
  | intLit : Int → PyExpr
  | strLit : List Char → PyExpr
  | listLit : List PyExpr → PyExpr
  | tupleLit : List PyExpr → PyExpr
  | call : List Char → List PyExpr → PyExpr

/-- Values of evaluated Python expressions; `vcall` marks the result of an
executed function call. -/
inductive PyVal where
  | vnone : PyVal
  | vint : Int → PyVal
  | vstr : List Char → PyVal
  | vlist : List PyVal → PyVal
  | vtuple : List PyVal → PyVal
  | vcall : List Char → List PyVal → PyVal

mutual

/-- Python `ast.literal_eval`: evaluates literal structure only and raises
(here: `none`) on any non-literal node such as a function call. -/
def literal_eval : PyExpr → Option PyVal
  | PyExpr.noneLit => some PyVal.vnone
  | PyExpr.intLit n => some (PyVal.vint n)
  | PyExpr.strLit s => some (PyVal.vstr s)
  | PyExpr.listLit xs => (literal_eval_elems xs).map PyVal.vlist
  | PyExpr.tupleLit xs => (literal_eval_elems xs).map PyVal.vtuple
  | PyExpr.call _ _ => none

/-- Elementwise `ast.literal_eval` over the members of a list or tuple
display. -/
def literal_eval_elems : List PyExpr → Option (List PyVal)
  | [] => some []
  | e :: es =>
    match literal_eval e, literal_eval_elems es with
    | some v, some vs => some (v :: vs)
    | _, _ => none

end

mutual

/-- Python's builtin `eval`: evaluates any expression, executing function
calls; the boolean records whether arbitrary code (a call) was executed. -/
def pyEval : PyExpr → PyVal × Bool
  | PyExpr.noneLit => (PyVal.vnone, false)
  | PyExpr.intLit n => (PyVal.vint n, false)
  | PyExpr.strLit s => (PyVal.vstr s, false)
  | PyExpr.listLit xs =>
    let r := pyEvalElems xs
    (PyVal.vlist r.1, r.2)
  | PyExpr.tupleLit xs =>
    let r := pyEvalElems xs
    (PyVal.vtuple r.1, r.2)
  | PyExpr.call f args =>
    let r := pyEvalElems args
    (PyVal.vcall f r.1, true)

/-- Elementwise `eval` over the members of a list or tuple display. -/
def pyEvalElems : List PyExpr → List PyVal × Bool
  | [] => ([], false)
  | e :: es =>
    let r := pyEval e
    let rs := pyEvalElems es
    (r.1 :: rs.1, r.2 || rs.2)

end

/-- How the v2 CLI entry point turns the `--token_spans` string into a
value (`inference_on_a_image_v2.py` line 324): it passes the raw string to
the builtin `eval`. -/
def v2_parse_token_spans (e : PyExpr) : PyVal × Bool :=
  pyEval e

/-- How the webapp runner turns the `--token_spans` string into a value
(`inference_for_webapp.py` line 52): `ast.literal_eval`. -/
def webapp_parse_token_spans (e : PyExpr) : Option PyVal :=
  literal_eval e

/-- Unfolding of `maskSelect` on a cons cell. -/
theorem maskSelect_cons (b : Bool) (mask : List Bool) (x : α) (xs : List α) :
    maskSelect (b :: mask) (x :: xs) =
      if b then x :: maskSelect mask xs else maskSelect mask xs := by
  cases b <;> simp [maskSelect, List.filter_cons]

/-- Selecting from `ys` with the mask `xs.map p` picks out exactly the
positions of `xs` satisfying `p`, in index order. -/
theorem maskSelect_map_eq_range (p : α → Bool) (x0 : α) (d : β) :
    ∀ (xs : List α) (ys : List β), ys.length = xs.length →
      maskSelect (xs.map p) ys =
        ((List.range xs.length).filter (fun i => p (xs.getD i x0))).map
          (fun i => ys.getD i d) := by
  intro xs
  induction xs with
  | nil =>
    intro ys h
    have hy : ys = [] := List.length_eq_zero.mp h
    subst hy
    rfl
  | cons x xs ih =>
    intro ys h
    cases ys with
    | nil => simp at h
    | cons y ys =>
      have hlen : ys.length = xs.length := by simpa using h
      have ihy := ih ys hlen
      simp only [List.map_cons, maskSelect_cons, List.length_cons,
        List.range_succ_eq_map, List.filter_cons, List.getD_cons_zero,
        List.filter_map, Function.comp, List.getD_cons_succ, List.map_map]
      by_cases hp : p x = true
      · simp [hp, ihy, Function.comp_def, List.getElem?_cons_succ, List.getD_eq_getElem?_getD]
      · simp [hp, ihy, Function.comp_def, List.getElem?_cons_succ, List.getD_eq_getElem?_getD]

/-- Selecting from a list with the mask produced from itself is `filter`. -/
theorem maskSelect_map_self (p : α → Bool) (xs : List α) :
    maskSelect (xs.map p) xs = xs.filter p := by
  induction xs with
  | nil => rfl
  | cons x xs ih =>
    simp only [List.map_cons, maskSelect_cons, List.filter_cons]
    by_cases hp : p x = true
    · simp [hp, ih]
    · simp [hp, ih]

/-- Counting `true` in a mapped boolean mask is `countP`. -/
theorem count_true_map (p : α → Bool) (xs : List α) :
    (xs.map p).count true = xs.countP p := by
  induction xs with
  | nil => rfl
  | cons x xs ih =>
    cases hp : p x <;> simp [List.count_cons, List.countP_cons, hp, ih]

/-- C1: in the threshold-based extractor, the retained query slots are
exactly those whose maximum per-token score strictly exceeds
`box_threshold`, they appear in original slot order (stable filter), and
the score reported for each kept slot is that slot's maximum raw score. -/
theorem extract_by_threshold_keeps_exactly_peaks (logits : List (List ℚ))
    (boxes : List Vec4) (box_threshold : ℚ)
    (hlen : boxes.length = logits.length) :
    extract_by_threshold logits boxes box_threshold =
      ((thresholdKeptIndices logits box_threshold).map (fun q => boxes.getD q ⟨0, 0, 0, 0⟩),
       (thresholdKeptIndices logits box_threshold).map (fun q => rowMax (logits.getD q []))) := by
  unfold extract_by_threshold thresholdKeptIndices
  have hb := maskSelect_map_eq_range (fun row => decide (box_threshold < rowMax row))
    [] (⟨0, 0, 0, 0⟩ : Vec4) logits boxes hlen
  have hl := maskSelect_map_eq_range (fun row => decide (box_threshold < rowMax row))
    [] ([] : List ℚ) logits logits rfl
  simp only [hb, hl, List.map_map]
  rfl

/-- C1 witness: the claim's example, with peak scores 0.9, 0.1, 0.4 and
box threshold 0.3 over three query slots: slots 0 and 2 are kept, in
order, with scores 0.9 and 0.4. -/
theorem extract_by_threshold_keeps_exactly_peaks_witness :
    ([⟨1, 1, 1, 1⟩, ⟨2, 2, 2, 2⟩, ⟨3, 3, 3, 3⟩] : List Vec4).length =
      ([[Rat.mk' 9 10, Rat.mk' 1 2], [Rat.mk' 1 10, 0], [Rat.mk' 2 5, Rat.mk' 1 5]]
        : List (List ℚ)).length ∧
    extract_by_threshold
        [[Rat.mk' 9 10, Rat.mk' 1 2], [Rat.mk' 1 10, 0], [Rat.mk' 2 5, Rat.mk' 1 5]]
        [⟨1, 1, 1, 1⟩, ⟨2, 2, 2, 2⟩, ⟨3, 3, 3, 3⟩] (Rat.mk' 3 10) =
      ([⟨1, 1, 1, 1⟩, ⟨3, 3, 3, 3⟩], [Rat.mk' 9 10, Rat.mk' 2 5]) := by
  refine ⟨rfl, ?_⟩
  rw [extract_by_threshold_keeps_exactly_peaks _ _ _ rfl]
  decide

/-- C8: for fixed logits and boxes, the threshold extractor's detection
count is monotonically non-increasing in the box threshold. -/
theorem detection_count_antitone (logits : List (List ℚ)) (boxes : List Vec4)
    (t1 t2 : ℚ) (h : t1 ≤ t2) :
    detection_count logits boxes t2 ≤ detection_count logits boxes t1 := by
  unfold detection_count extract_by_threshold
  simp only [maskSelect_map_self, List.length_map, ← List.countP_eq_length_filter]
  refine List.countP_mono_left (fun row _ hgt => ?_)
  simp only [decide_eq_true_eq] at hgt ⊢
  exact lt_of_le_of_lt h hgt

/-- C8 witness: raising the threshold from 0.3 to 0.5 on a concrete pair
of slots does not increase the detection count. -/
theorem detection_count_antitone_witness :
    (Rat.mk' 3 10 : ℚ) ≤ Rat.mk' 1 2 ∧
    detection_count [[Rat.mk' 9 10], [Rat.mk' 2 5]] [⟨1, 1, 1, 1⟩, ⟨2, 2, 2, 2⟩]
        (Rat.mk' 1 2) ≤
      detection_count [[Rat.mk' 9 10], [Rat.mk' 2 5]] [⟨1, 1, 1, 1⟩, ⟨2, 2, 2, 2⟩]
        (Rat.mk' 3 10) :=
  ⟨by decide, detection_count_antitone _ _ _ _ (by decide)⟩

/-- C4: on an empty token-span group list the span extractor reaches
`torch.cat` on an empty list of tensors, which raises; the decode aborts
instead of producing the empty detection list the spec promises. -/
theorem extract_by_spans_empty_groups_crashes (logits : List (List ℚ))
    (boxes : List Vec4) (caption : List Char) (box_threshold : ℚ) :
    extract_by_spans logits boxes [] caption [] box_threshold = none := rfl

/-- C2 counterexample: supplying both a text threshold and token spans is
accepted (the token-span path is taken); it is not rejected as a caller
error, contrary to the claim. -/
theorem get_grounding_dispatch_accepts_both :
    get_grounding_dispatch (some 1) (some [[(2, 5)]]) =
      Except.ok (ExtractPath.spansMode [[(2, 5)]]) := rfl

/-- C2 amended: the decoding entry point rejects the configuration exactly
when neither `text_threshold` nor `token_spans` is provided; when both are
provided the token-span path is taken and `text_threshold` is ignored. -/
theorem get_grounding_dispatch_error_iff (text_threshold : Option ℚ)
    (token_spans : Option (List (List (Nat × Nat)))) :
    (∃ msg, get_grounding_dispatch text_threshold token_spans = Except.error msg) ↔
      (text_threshold = none ∧ token_spans = none) := by
  cases text_threshold <;> cases token_spans <;> simp [get_grounding_dispatch]

/-- One phrase group's retained boxes, in index form. -/
theorem span_group_boxes_eq (logits : List (List ℚ)) (boxes : List Vec4)
    (box_threshold : ℚ) (hlen : boxes.length = logits.length)
    (srow : List ℚ) (hs : srow.length = logits.length) :
    maskSelect (srow.map (fun s => decide (box_threshold < s))) boxes =
      (hitIndices srow box_threshold).map (fun q => boxes.getD q ⟨0, 0, 0, 0⟩) := by
  have h := maskSelect_map_eq_range (fun s => decide (box_threshold < s)) 0
    (⟨0, 0, 0, 0⟩ : Vec4) srow boxes (by rw [hlen, hs])
  simpa [hitIndices] using h

/-- One phrase group's retained scores, in index form. -/
theorem span_group_scores_eq (box_threshold : ℚ) (srow : List ℚ) :
    maskSelect (srow.map (fun s => decide (box_threshold < s))) srow =
      (hitIndices srow box_threshold).map (fun q => srow.getD q 0) := by
  have h := maskSelect_map_eq_range (fun s => decide (box_threshold < s)) 0
    (0 : ℚ) srow srow rfl
  simpa [hitIndices] using h

/-- One phrase group's hit count, in index form. -/
theorem span_group_count_eq (box_threshold : ℚ) (srow : List ℚ) :
    (srow.map (fun s => decide (box_threshold < s))).count true =
      (hitIndices srow box_threshold).length := by
  rw [count_true_map]
  have h := congrArg List.length (span_group_scores_eq box_threshold srow)
  rw [maskSelect_map_self] at h
  simpa [List.countP_eq_length_filter] using h

/-- C3: in the token-span extractor, each phrase group independently
retains exactly the query slots whose aggregated score strictly exceeds
`box_threshold`; every retained slot of a group carries the group's joined
caption-substring phrase and its aggregated score; results are
concatenated in group order then slot order, with no deduplication. -/
theorem extract_by_spans_spec (logits : List (List ℚ)) (boxes : List Vec4)
    (posmaps : List (List ℚ)) (caption : List Char)
    (token_spans : List (List (Nat × Nat))) (box_threshold : ℚ)
    (hlen : boxes.length = logits.length)
    (hg : token_spans ≠ []) (hp : posmaps ≠ []) :
    extract_by_spans logits boxes posmaps caption token_spans box_threshold =
      some
        (((token_spans.zip (aggScores posmaps logits)).map
            (fun gs => (hitIndices gs.2 box_threshold).map
              (fun q => boxes.getD q ⟨0, 0, 0, 0⟩))).flatten,
         ((token_spans.zip (aggScores posmaps logits)).map
            (fun gs => List.replicate (hitIndices gs.2 box_threshold).length
              (spanPhrase caption gs.1))).flatten,
         ((token_spans.zip (aggScores posmaps logits)).map
            (fun gs => (hitIndices gs.2 box_threshold).map
              (fun q => gs.2.getD q 0))).flatten) := by
  have key : ∀ gs ∈ token_spans.zip (aggScores posmaps logits),
      (maskSelect (gs.2.map (fun s => decide (box_threshold < s))) boxes,
       List.replicate ((gs.2.map (fun s => decide (box_threshold < s))).count true)
         (spanPhrase caption gs.1),
       maskSelect (gs.2.map (fun s => decide (box_threshold < s))) gs.2) =
      ((hitIndices gs.2 box_threshold).map (fun q => boxes.getD q ⟨0, 0, 0, 0⟩),
       List.replicate (hitIndices gs.2 box_threshold).length (spanPhrase caption gs.1),
       (hitIndices gs.2 box_threshold).map (fun q => gs.2.getD q 0)) := by
    intro gs hgs
    have hmem := (List.of_mem_zip hgs).2
    obtain ⟨p', _, hrow⟩ := List.mem_map.mp hmem
    have hs : gs.2.length = logits.length := by rw [← hrow]; exact List.length_map _ _
    rw [span_group_boxes_eq logits boxes box_threshold hlen gs.2 hs,
      span_group_scores_eq, span_group_count_eq]
  obtain ⟨g0, ts', rfl⟩ := List.exists_cons_of_ne_nil hg
  obtain ⟨p0, ps', rfl⟩ := List.exists_cons_of_ne_nil hp
  have hper :
      ((g0 :: ts').zip (aggScores (p0 :: ps') logits)).map
        (fun gs =>
          (maskSelect (gs.2.map (fun s => decide (box_threshold < s))) boxes,
           List.replicate ((gs.2.map (fun s => decide (box_threshold < s))).count true)
             (spanPhrase caption gs.1),
           maskSelect (gs.2.map (fun s => decide (box_threshold < s))) gs.2)) =
      ((g0 :: ts').zip (aggScores (p0 :: ps') logits)).map
        (fun gs =>
          ((hitIndices gs.2 box_threshold).map (fun q => boxes.getD q ⟨0, 0, 0, 0⟩),
           List.replicate (hitIndices gs.2 box_threshold).length (spanPhrase caption gs.1),
           (hitIndices gs.2 box_threshold).map (fun q => gs.2.getD q 0))) :=
    List.map_congr_left key
  simp only [extract_by_spans]
  rw [hper]
  simp only [aggScores, List.map_cons, List.zip_cons_cons, torchCat, List.map_map,
    Function.comp_def]

/-- C3 witness: caption "a cat and a dog." with groups for "cat" and
"a dog", two indicator rows and three query slots with integral scores. -/
theorem extract_by_spans_spec_witness :
    ([⟨1, 1, 1, 1⟩, ⟨2, 2, 2, 2⟩, ⟨3, 3, 3, 3⟩] : List Vec4).length =
      ([[9, 2], [1, 8], [4, 0]] : List (List ℚ)).length ∧
    ([[(2, 5)], [(10, 11), (12, 15)]] : List (List (Nat × Nat))) ≠ [] ∧
    ([[1, 0], [0, 1]] : List (List ℚ)) ≠ [] ∧
    extract_by_spans [[9, 2], [1, 8], [4, 0]] [⟨1, 1, 1, 1⟩, ⟨2, 2, 2, 2⟩, ⟨3, 3, 3, 3⟩]
        [[1, 0], [0, 1]] ("a cat and a dog.".toList) [[(2, 5)], [(10, 11), (12, 15)]] 3 =
      some
        ((([[(2, 5)], [(10, 11), (12, 15)]].zip
              (aggScores [[1, 0], [0, 1]] [[9, 2], [1, 8], [4, 0]])).map
            (fun gs => (hitIndices gs.2 3).map
              (fun q => ([⟨1, 1, 1, 1⟩, ⟨2, 2, 2, 2⟩, ⟨3, 3, 3, 3⟩] : List Vec4).getD q
                ⟨0, 0, 0, 0⟩))).flatten,
         (([[(2, 5)], [(10, 11), (12, 15)]].zip
              (aggScores [[1, 0], [0, 1]] [[9, 2], [1, 8], [4, 0]])).map
            (fun gs => List.replicate (hitIndices gs.2 3).length
              (spanPhrase ("a cat and a dog.".toList) gs.1))).flatten,
         (([[(2, 5)], [(10, 11), (12, 15)]].zip
              (aggScores [[1, 0], [0, 1]] [[9, 2], [1, 8], [4, 0]])).map
            (fun gs => (hitIndices gs.2 3).map (fun q => gs.2.getD q 0))).flatten) :=
  ⟨rfl, by decide, by decide,
    extract_by_spans_spec [[9, 2], [1, 8], [4, 0]]
      [⟨1, 1, 1, 1⟩, ⟨2, 2, 2, 2⟩, ⟨3, 3, 3, 3⟩] [[1, 0], [0, 1]]
      ("a cat and a dog.".toList) [[(2, 5)], [(10, 11), (12, 15)]] 3
      rfl (by decide) (by decide)⟩

/-- C5 counterexample: when token spans are supplied, the webapp writes
0.0 (not null) into the detailed record's `text_threshold` field. -/
theorem webapp_detail_text_threshold_not_null :
    (webapp_detail_payload [] 10 10 [] 1 1 true [] [] []).map
        (fun p => p.text_threshold) = some (some 0) ∧
      (some (some (0 : ℚ)) : Option (Option ℚ)) ≠ some none := by
  exact ⟨rfl, by simp⟩

/-- C5 amended: with token spans supplied, the v2 CLI's detailed record
carries a null `text_threshold`, the webapp's detailed record carries 0.0,
and the webapp's compact web record carries null. -/
theorem detail_text_threshold_wiring (cli_text_threshold width height box_threshold : ℚ)
    (image_path text_prompt : List Char) :
    (v2_main_detail_payload image_path width height text_prompt box_threshold
        cli_text_threshold true [] [] []).map (fun p => p.text_threshold) = some none ∧
    (webapp_detail_payload image_path width height text_prompt box_threshold
        cli_text_threshold true [] [] []).map (fun p => p.text_threshold) = some (some 0) ∧
    webapp_web_text_threshold cli_text_threshold true = none :=
  ⟨rfl, rfl, rfl⟩

/-- C6: the v2 CLI passes the token-span string to the builtin `eval`,
which executes a function call embedded in it (arbitrary code); the
webapp's `ast.literal_eval` rejects the same input instead of executing
it. -/
theorem v2_token_spans_parse_executes_code :
    v2_parse_token_spans (PyExpr.call ("__import__".toList) [PyExpr.strLit ("os".toList)]) =
      (PyVal.vcall ("__import__".toList) [PyVal.vstr ("os".toList)], true) ∧
    webapp_parse_token_spans
        (PyExpr.call ("__import__".toList) [PyExpr.strLit ("os".toList)]) = none :=
  ⟨rfl, rfl⟩

/-- When the derived box lists are long enough, the assembly loop of
`save_boxes_json` succeeds and emits one item per zipped label/score
pair. -/
theorem buildItems_success (bcx bxyxy bnorm bxywh : List Vec4)
    (h1 : bxyxy.length = bcx.length) (h2 : bnorm.length = bcx.length)
    (h3 : bxywh.length = bcx.length) :
    ∀ (pairs : List (List Char × ℚ)) (idx : Nat), idx + pairs.length ≤ bcx.length →
      ∃ items, buildItems bcx bxyxy bnorm bxywh idx pairs = some items ∧
        items.length = pairs.length := by
  intro pairs
  induction pairs with
  | nil => exact fun idx _ => ⟨[], rfl, rfl⟩
  | cons ls rest ih =>
    intro idx hle
    have hc : idx < bcx.length := by simp only [List.length_cons] at hle; omega
    have hx : idx < bxyxy.length := by omega
    have hn : idx < bnorm.length := by omega
    have hw : idx < bxywh.length := by omega
    obtain ⟨items, hi, hlen2⟩ := ih (idx + 1) (by simp only [List.length_cons] at hle; omega)
    refine ⟨{ label := ls.1, score := ls.2, box_cxcywh_norm := bcx[idx],
              box_xyxy := bxyxy[idx],
              box_xyxy_int := (pyRound bxyxy[idx].v0, pyRound bxyxy[idx].v1,
                pyRound bxyxy[idx].v2, pyRound bxyxy[idx].v3),
              box_xyxy_norm := bnorm[idx], box_xywh := bxywh[idx] } :: items,
      ?_, by simp [hlen2]⟩
    simp only [buildItems]
    rw [List.getElem?_eq_getElem hx, List.getElem?_eq_getElem hc,
      List.getElem?_eq_getElem hn, List.getElem?_eq_getElem hw, hi]

/-- C7 counterexample: a label/score length mismatch at assembly time is
silently tolerated, not fatal: with two boxes, two labels and one score,
`save_boxes_json` succeeds and emits a single record. -/
theorem save_boxes_json_silently_truncates :
    (save_boxes_json [] 10 10 [] 1 none [⟨1, 1, 1, 1⟩, ⟨2, 2, 2, 2⟩]
        [[ 'a' ], [ 'b' ]] [1]).map (fun p => p.boxes.length) = some 1 := rfl

/-- C7 amended: `save_boxes_json` performs no length check: it zips labels
with scores (truncating to the shorter) and succeeds with
`min len(labels) len(scores)` records whenever the boxes list covers that
many indices; only a boxes list shorter than the zipped length is fatal
(an IndexError). -/
theorem save_boxes_json_length_behavior (image_path : List Char)
    (width height : ℚ) (text_prompt : List Char) (box_threshold : ℚ)
    (text_threshold : Option ℚ) (boxes_cxcywh_norm : List Vec4)
    (labels : List (List Char)) (scores : List ℚ)
    (hb : min labels.length scores.length ≤ boxes_cxcywh_norm.length) :
    ∃ p, save_boxes_json image_path width height text_prompt box_threshold
        text_threshold boxes_cxcywh_norm labels scores = some p ∧
      p.boxes.length = min labels.length scores.length := by
  obtain ⟨items, hi, hlen⟩ := buildItems_success boxes_cxcywh_norm
    (boxes_cxcywh_to_xyxy boxes_cxcywh_norm width height true)
    ((boxes_cxcywh_to_xyxy boxes_cxcywh_norm width height true).map
      (fun b => xyxyToNorm width height b))
    (boxes_xyxy_to_xywh (boxes_cxcywh_to_xyxy boxes_cxcywh_norm width height true))
    (by simp [boxes_cxcywh_to_xyxy])
    (by simp [boxes_cxcywh_to_xyxy])
    (by simp [boxes_cxcywh_to_xyxy, boxes_xyxy_to_xywh])
    (labels.zip scores) 0 (by simpa [List.length_zip] using hb)
  refine ⟨{ image_path := image_path, image_width := width, image_height := height,
            text_prompt := text_prompt, box_threshold := box_threshold,
            text_threshold := text_threshold, boxes := items }, ?_,
    by simpa [List.length_zip] using hlen⟩
  simp only [save_boxes_json]
  rw [hi]

/-- C7 witness: with two boxes, two labels and one score, the assembly
succeeds with exactly one record. -/
theorem save_boxes_json_length_behavior_witness :
    min ([[ 'a' ], [ 'b' ]] : List (List Char)).length ([1] : List ℚ).length ≤
      ([⟨1, 1, 1, 1⟩, ⟨2, 2, 2, 2⟩] : List Vec4).length ∧
    ∃ p, save_boxes_json [] 10 10 [] 1 none [⟨1, 1, 1, 1⟩, ⟨2, 2, 2, 2⟩]
        [[ 'a' ], [ 'b' ]] [1] = some p ∧
      p.boxes.length = min ([[ 'a' ], [ 'b' ]] : List (List Char)).length
        ([1] : List ℚ).length :=
  ⟨by decide, save_boxes_json_length_behavior [] 10 10 [] 1 none
    [⟨1, 1, 1, 1⟩, ⟨2, 2, 2, 2⟩] [[ 'a' ], [ 'b' ]] [1] (by decide)⟩

/-- Members of a dropWhile suffix are members of the original list. -/
theorem mem_of_mem_dropWhile {p : α → Bool} {l : List α} {a : α}
    (h : a ∈ l.dropWhile p) : a ∈ l :=
  (List.dropWhile_sublist p).mem h

/-- A stripped string is empty exactly when every character of the
original is whitespace. -/
theorem pyStrip_eq_nil_iff (s : List Char) :
    pyStrip s = [] ↔ ∀ c ∈ s, pyIsSpace c = true := by
  unfold pyStrip
  rw [List.reverse_eq_nil_iff, List.dropWhile_eq_nil_iff]
  constructor
  · intro h c hc
    rw [← List.takeWhile_append_dropWhile (p := pyIsSpace) (l := s)] at hc
    rcases List.mem_append.mp hc with h1 | h2
    · exact List.mem_takeWhile_imp h1
    · exact h c (List.mem_reverse.mpr h2)
  · intro h c hc
    exact h c (mem_of_mem_dropWhile (List.mem_reverse.mp hc))

/-- C9: a prompt that is empty or all-whitespace resolves to the
comma-plus-space join of the static default class list; any other prompt
resolves to itself with leading/trailing whitespace stripped. -/
theorem resolve_text_prompt_spec (text_prompt : List Char) :
    ((∀ c ∈ text_prompt, pyIsSpace c = true) →
      resolve_text_prompt text_prompt =
        joinWithSep [ ',', ' ' ] DEFAULT_GROUNDING_DINO_CLASSES) ∧
    ((∃ c ∈ text_prompt, pyIsSpace c = false) →
      resolve_text_prompt text_prompt = pyStrip text_prompt) := by
  constructor
  · intro h
    have hs : pyStrip text_prompt = [] := (pyStrip_eq_nil_iff _).mpr h
    unfold resolve_text_prompt
    simp [hs]
  · rintro ⟨c, hc, hcs⟩
    have hne : text_prompt ≠ [] := List.ne_nil_of_mem hc
    have hsne : pyStrip text_prompt ≠ [] := by
      intro h0
      have hall := (pyStrip_eq_nil_iff _).mp h0 c hc
      rw [hall] at hcs
      exact absurd hcs (by simp)
    unfold resolve_text_prompt
    simp [hne, hsne]

/-- C9 witness: an all-whitespace prompt falls back to the default class
list; a padded prompt is stripped. -/
theorem resolve_text_prompt_spec_witness :
    resolve_text_prompt ("   ".toList) =
      joinWithSep [ ',', ' ' ] DEFAULT_GROUNDING_DINO_CLASSES ∧
    resolve_text_prompt (" cat ".toList) = "cat".toList :=
  ⟨(resolve_text_prompt_spec ("   ".toList)).1 (by decide),
   ((resolve_text_prompt_spec (" cat ".toList)).2 ⟨ 'c', by decide, by decide⟩).trans
     (by decide)⟩

/-- Clamping into the interval `[0, M]` always lands in `[0, M]`. -/
theorem pyClamp_nonneg_le (x M : ℚ) (hM : 0 ≤ M) :
    0 ≤ pyClamp x 0 M ∧ pyClamp x 0 M ≤ M :=
  ⟨le_max_left 0 _, max_le hM (min_le_left M x)⟩

/-- C10: every `box_xyxy_norm` entry of the detailed record — the clamped
pixel box divided by the image dimensions, exactly as `save_boxes_json`
derives it with the serializer's default `clamp=True` — has all four
components in `[0, 1]`, for any input box whatsoever. -/
theorem box_xyxy_norm_in_unit_interval (boxes : List Vec4) (width height : ℚ)
    (hW : 0 < width) (hH : 0 < height) :
    ∀ nb ∈ (boxes_cxcywh_to_xyxy boxes width height true).map
        (fun b => xyxyToNorm width height b),
      (0 ≤ nb.v0 ∧ nb.v0 ≤ 1) ∧ (0 ≤ nb.v1 ∧ nb.v1 ≤ 1) ∧
      (0 ≤ nb.v2 ∧ nb.v2 ≤ 1) ∧ (0 ≤ nb.v3 ∧ nb.v3 ≤ 1) := by
  intro nb hnb
  obtain ⟨c, hc, rfl⟩ := List.mem_map.mp hnb
  obtain ⟨b, hb, rfl⟩ := List.mem_map.mp hc
  have h0 := pyClamp_nonneg_le ((b.v0 - b.v2 / 2) * width) width hW.le
  have h1 := pyClamp_nonneg_le ((b.v1 - b.v3 / 2) * height) height hH.le
  have h2 := pyClamp_nonneg_le ((b.v0 + b.v2 / 2) * width) width hW.le
  have h3 := pyClamp_nonneg_le ((b.v1 + b.v3 / 2) * height) height hH.le
  simp only [box_cxcywh_to_xyxy_one, xyxyToNorm, if_true]
  exact ⟨⟨div_nonneg h0.1 hW.le, (div_le_one hW).mpr h0.2⟩,
    ⟨div_nonneg h1.1 hH.le, (div_le_one hH).mpr h1.2⟩,
    ⟨div_nonneg h2.1 hW.le, (div_le_one hW).mpr h2.2⟩,
    ⟨div_nonneg h3.1 hH.le, (div_le_one hH).mpr h3.2⟩⟩

/-- C10 witness: a box whose normalized center-size form extends far
outside the image still yields a `box_xyxy_norm` inside the unit square. -/
theorem box_xyxy_norm_in_unit_interval_witness :
    (0 : ℚ) < 100 ∧
    ((0 ≤ (xyxyToNorm 100 100 (box_cxcywh_to_xyxy_one ⟨0, 0, 4, 4⟩ 100 100 true)).v0 ∧
        (xyxyToNorm 100 100 (box_cxcywh_to_xyxy_one ⟨0, 0, 4, 4⟩ 100 100 true)).v0 ≤ 1) ∧
      (0 ≤ (xyxyToNorm 100 100 (box_cxcywh_to_xyxy_one ⟨0, 0, 4, 4⟩ 100 100 true)).v1 ∧
        (xyxyToNorm 100 100 (box_cxcywh_to_xyxy_one ⟨0, 0, 4, 4⟩ 100 100 true)).v1 ≤ 1) ∧
      (0 ≤ (xyxyToNorm 100 100 (box_cxcywh_to_xyxy_one ⟨0, 0, 4, 4⟩ 100 100 true)).v2 ∧
        (xyxyToNorm 100 100 (box_cxcywh_to_xyxy_one ⟨0, 0, 4, 4⟩ 100 100 true)).v2 ≤ 1) ∧
      (0 ≤ (xyxyToNorm 100 100 (box_cxcywh_to_xyxy_one ⟨0, 0, 4, 4⟩ 100 100 true)).v3 ∧
        (xyxyToNorm 100 100 (box_cxcywh_to_xyxy_one ⟨0, 0, 4, 4⟩ 100 100 true)).v3 ≤ 1)) :=
  ⟨by decide,
    box_xyxy_norm_in_unit_interval [⟨0, 0, 4, 4⟩] 100 100 (by decide) (by decide)
      (xyxyToNorm 100 100 (box_cxcywh_to_xyxy_one ⟨0, 0, 4, 4⟩ 100 100 true))
      (List.mem_cons_self _ _)⟩
